import Mathlib

/-!
Shallow embedding of the Elang backend's dependency-scanning and
monitoring-job subsystem (Go), together with proofs about the claims of
its specification.

Conventions of the embedding:
* Go strings are modelled as Lean `String` over ASCII; `strings.ToLower`,
  `strings.TrimSpace`, `strings.Split`, `strings.ReplaceAll`, … are
  modelled by the `go*` helpers below with matching semantics on the
  ASCII inputs that occur in this code base.
* Go `time.Time` fields (`CheckedAt`, `PublishedDate`, `StartTime`, …)
  carry no claim-relevant information and are elided from the records.
* Go `float64` scores are modelled as `Rat`; every score the embedded
  code manipulates is the exact constant 5.0 or a sum/average of such
  constants, so no floating-point rounding behaviour is involved.
* The HTTP call to the OSV endpoint inside `checkOSVDatabase` is
  abstracted as an oracle `OSVOracle` mapping the query triple
  (name, ecosystem, version) to either a vulnerability list or an error;
  marshalling/transport/decoding failures are oracle error outcomes.
* Maps with a fixed key set (the severity-count map in
  `AggregateVulnerabilitySummary`) are modelled as records with one
  field per key.
-/

namespace Elang

/-! ## Go string-library helpers

These are implemented by structural recursion over the character list of
the string (rather than through the position-based core `String`
functions) so that every concrete instance reduces inside the kernel. -/

/-- Model of Go `strings.ToLower` (ASCII). -/
def goToLower (s : String) : String := String.mk (s.data.map Char.toLower)

/-- Model of Go `strings.ToUpper` (ASCII). -/
def goToUpper (s : String) : String := String.mk (s.data.map Char.toUpper)

/-- Model of Go `strings.TrimSpace` (over ASCII whitespace). -/
def goTrimSpace (s : String) : String :=
  String.mk (((s.data.dropWhile Char.isWhitespace).reverse.dropWhile
    Char.isWhitespace).reverse)

/-- `listStartsWith l p`: does `l` start with `p`? -/
def listStartsWith : List Char → List Char → Bool
  | _, [] => true
  | [], _ :: _ => false
  | a :: as, b :: bs => a = b && listStartsWith as bs

/-- Model of Go `strings.HasPrefix`. -/
def goStartsWith (s p : String) : Bool := listStartsWith s.data p.data

/-- Left-to-right non-overlapping split on a nonempty separator; the
fuel argument is an upper bound on the scanned length and makes the
recursion structural. -/
def splitFuel (sep : List Char) : Nat → List Char → List Char → List (List Char)
  | 0, acc, rest => [acc.reverse ++ rest]
  | _ + 1, acc, [] => [acc.reverse]
  | fuel + 1, acc, c :: cs =>
    if listStartsWith (c :: cs) sep then
      acc.reverse :: splitFuel sep fuel [] (List.drop sep.length (c :: cs))
    else splitFuel sep fuel (c :: acc) cs

/-- Model of Go `strings.Split` (all uses have a nonempty separator). -/
def goSplit (s sep : String) : List String :=
  (splitFuel sep.data (s.data.length + 1) [] s.data).map String.mk

/-- Left-to-right non-overlapping replacement of a nonempty pattern. -/
def replaceFuel (pat rep : List Char) : Nat → List Char → List Char
  | 0, rest => rest
  | _ + 1, [] => []
  | fuel + 1, c :: cs =>
    if listStartsWith (c :: cs) pat then
      rep ++ replaceFuel pat rep fuel (List.drop pat.length (c :: cs))
    else c :: replaceFuel pat rep fuel cs

/-- Model of Go `strings.ReplaceAll` (all uses have a nonempty pattern). -/
def goReplaceAll (s old new : String) : String :=
  String.mk (replaceFuel old.data new.data (s.data.length + 1) s.data)

/-- Substring scan used by `goContains`. -/
def containsAux (pat : List Char) : List Char → Bool
  | [] => listStartsWith [] pat
  | c :: cs => listStartsWith (c :: cs) pat || containsAux pat cs

/-- Model of Go `strings.Contains` (all uses have a nonempty substring). -/
def goContains (s sub : String) : Bool := containsAux sub.data s.data

/-- Model of Go `strings.Count` for a nonempty, non-overlapping pattern. -/
def goCount (s sub : String) : Nat := (goSplit s sub).length - 1

/-- Model of Go `strings.TrimPrefix`. -/
def goTrimPre (s p : String) : String :=
  if goStartsWith s p then String.mk (s.data.drop p.data.length) else s

/-- Model of Go `strings.Join`. -/
def goJoin (l : List String) (sep : String) : String :=
  match l with
  | [] => ""
  | x :: xs => xs.foldl (fun acc y => acc ++ sep ++ y) x

/-- The single-quote character as a string (used in Go error messages). -/
def sq : String := (Char.ofNat 39).toString

/-! ## Data model: parser.DependencyInfo -/

/-- Embeds Go `parser.DependencyInfo`. -/
structure DependencyInfo where
  name : String
  owner : String := ""
  repo : String := ""
  version : String
  runtime : String
  githubURL : String := ""
  isGitHubRepo : Bool := false
deriving Repr, DecidableEq, Inhabited

/-! ## DependencyNameNormalizer -/

/-- First-occurrence lookup in a literal Go `map[string]string`
(Go map access with static distinct keys). -/
def lookupStr (m : List (String × String)) (k : String) : Option String :=
  (m.find? (fun p => p.1 = k)).map (fun p => p.2)

/-- The regex `/v\d+$` removal in `normalizeGoName`: strips a trailing
`/v<digits>` (at least one digit). -/
def stripGoVersionTail (s : String) : String :=
  let r := s.data.reverse
  let ds := r.takeWhile Char.isDigit
  match ds, r.drop ds.length with
  | [], _ => s
  | _ :: _, c1 :: c2 :: rest => if c1 = 'v' ∧ c2 = '/' then String.mk rest.reverse else s
  | _, _ => s

/-- The `for i, part := range parts` search in `normalizeGoName`: the first
index `i` with `parts[i] = "github.com"` and `i+2 < len(parts)` yields
`join(parts[i:i+3], "/")`. -/
def githubJoinAux : List String → Option String
  | [] => none
  | p :: rest =>
    if p = "github.com" ∧ 2 ≤ rest.length then
      match rest with
      | b :: c :: _ => some (goJoin ["github.com", b, c] "/")
      | _ => none
    else githubJoinAux rest

/-- Embeds `normalizeGoName`. -/
def normalizeGoName (name : String) : String :=
  let name := goTrimSpace name
  let name := stripGoVersionTail name
  if goContains name "github.com" ∧ ¬ goStartsWith name "github.com/" then
    match githubJoinAux (goSplit name "/") with
    | some r => r
    | none => name
  else name

/-- Embeds `normalizeNodeName`. -/
def normalizeNodeName (name : String) : String :=
  let name := goTrimSpace name
  let name :=
    if goContains name "@" ∧ ¬ goStartsWith name "@" then
      (goSplit name "@").getD 0 ""
    else if goStartsWith name "@" then
      let parts := goSplit name "@"
      if parts.length > 2 then parts.getD 0 "" ++ "@" ++ parts.getD 1 "" else name
    else name
  goTrimSpace name

/-- The `commonMappings` literal in `normalizePythonName`. -/
def pythonCommonMappings : List (String × String) :=
  [("pil", "pillow"), ("yaml", "pyyaml"),
   ("psycopg2", "psycopg2-binary"), ("psycopg2-binary", "psycopg2-binary")]

/-- Embeds `normalizePythonName`. -/
def normalizePythonName (name : String) : String :=
  let name := goTrimSpace name
  let name := goToLower name
  let name := goReplaceAll name "_" "-"
  match lookupStr pythonCommonMappings name with
  | some canonical => canonical
  | none => name

/-- The `commonGroupIds` literal in `normalizeJavaName`. -/
def javaCommonGroupIds : List (String × String) :=
  [("spring-core", "org.springframework:spring-core"),
   ("spring-boot", "org.springframework.boot:spring-boot"),
   ("hibernate-core", "org.hibernate:hibernate-core"),
   ("jackson-core", "com.fasterxml.jackson.core:jackson-core"),
   ("jackson-databind", "com.fasterxml.jackson.core:jackson-databind"),
   ("commons-lang3", "org.apache.commons:commons-lang3"),
   ("commons-collections4", "org.apache.commons:commons-collections4"),
   ("guava", "com.google.guava:guava"),
   ("slf4j-api", "org.slf4j:slf4j-api"),
   ("logback-classic", "ch.qos.logback:logback-classic"),
   ("junit-jupiter", "org.junit.jupiter:junit-jupiter")]

/-- Embeds `normalizeJavaName`. -/
def normalizeJavaName (name : String) : String :=
  let name := goTrimSpace name
  let name :=
    if goCount name ":" ≥ 2 then
      let parts := goSplit name ":"
      if parts.length ≥ 3 then parts.getD 0 "" ++ ":" ++ parts.getD 1 "" else name
    else name
  if goContains name ":" then name
  else
    match lookupStr javaCommonGroupIds name with
    | some fullName => fullName
    | none => name

/-- Embeds `normalizeGradleName` (delegates to the Maven form). -/
def normalizeGradleName (name : String) : String := normalizeJavaName name

/-- The `commonMappings` literal in `normalizeDotNetName`. -/
def dotnetCommonMappings : List (String × String) :=
  [("newtonsoft.json", "Newtonsoft.Json"),
   ("microsoft.aspnetcore", "Microsoft.AspNetCore"),
   ("microsoft.aspnetcore.mvc", "Microsoft.AspNetCore.Mvc"),
   ("microsoft.aspnetcore.app", "Microsoft.AspNetCore.App"),
   ("system.text.json", "System.Text.Json"),
   ("entityframework", "EntityFramework"),
   ("automapper", "AutoMapper"),
   ("serilog", "Serilog"),
   ("fluentvalidation", "FluentValidation")]

/-- Embeds `normalizeDotNetName`. -/
def normalizeDotNetName (name : String) : String :=
  let name := goTrimSpace name
  let name := if goContains name "/" then (goSplit name "/").getD 0 "" else name
  let lowerName := goToLower name
  match lookupStr dotnetCommonMappings lowerName with
  | some canonical => canonical
  | none => name

/-- The `commonMappings` literal in `normalizeRubyName`. -/
def rubyCommonMappings : List (String × String) :=
  [("rails", "rails"), ("devise", "devise"), ("sidekiq", "sidekiq"),
   ("rspec", "rspec"), ("puma", "puma"), ("bootsnap", "bootsnap"),
   ("turbo-rails", "turbo-rails"), ("stimulus-rails", "stimulus-rails")]

/-- Embeds `normalizeRubyName`. -/
def normalizeRubyName (name : String) : String :=
  let name := goTrimSpace name
  let name := goToLower name
  match lookupStr rubyCommonMappings name with
  | some canonical => canonical
  | none => name

/-- The `commonVendors` literal in `normalizePHPName`. -/
def phpCommonVendors : List (String × String) :=
  [("symfony", "symfony/symfony"), ("laravel", "laravel/framework"),
   ("guzzle", "guzzlehttp/guzzle"), ("twig", "twig/twig"),
   ("monolog", "monolog/monolog"), ("phpunit", "phpunit/phpunit"),
   ("doctrine", "doctrine/orm"), ("swiftmailer", "swiftmailer/swiftmailer")]

/-- Embeds `normalizePHPName`. -/
def normalizePHPName (name : String) : String :=
  let name := goTrimSpace name
  let name := goToLower name
  if goContains name "/" then name
  else
    match lookupStr phpCommonVendors name with
    | some fullName => fullName
    | none => name

/-- Embeds `normalizeRustName`. -/
def normalizeRustName (name : String) : String :=
  let name := goTrimSpace name
  let name := goToLower name
  goReplaceAll name "_" "-"

/-- Embeds `NormalizeName`: dispatch on the lower-cased runtime. -/
def NormalizeName (name runtime : String) : String :=
  let rt := goToLower runtime
  if rt = "go" then normalizeGoName name
  else if rt = "node" ∨ rt = "npm" then normalizeNodeName name
  else if rt = "python" ∨ rt = "pip" then normalizePythonName name
  else if rt = "java" ∨ rt = "maven" then normalizeJavaName name
  else if rt = "gradle" then normalizeGradleName name
  else if rt = "dotnet" ∨ rt = "nuget" then normalizeDotNetName name
  else if rt = "ruby" ∨ rt = "gem" then normalizeRubyName name
  else if rt = "php" ∨ rt = "composer" then normalizePHPName name
  else if rt = "rust" ∨ rt = "cargo" then normalizeRustName name
  else goTrimSpace name

/-- Embeds `NormalizeVersion`. -/
def NormalizeVersion (version : String) : String :=
  let v := goTrimSpace version
  let v := goTrimPre v "^"
  let v := goTrimPre v "~"
  let v := goTrimPre v ">="
  let v := goTrimPre v "<="
  let v := goTrimPre v ">"
  let v := goTrimPre v "<"
  let v := goTrimPre v "="
  let v := goTrimPre v "v"
  let v := if goContains v " - " then goTrimSpace ((goSplit v " - ").getD 0 "") else v
  let v := if goContains v " || " then goTrimSpace ((goSplit v " || ").getD 0 "") else v
  let v := if goContains v " " then (goSplit v " ").getD 0 "" else v
  goTrimSpace v

/-- Embeds `NormalizeDependencyInfo`. -/
def NormalizeDependencyInfo (dep : DependencyInfo) : DependencyInfo :=
  { dep with
    name := NormalizeName dep.name dep.runtime
    version := NormalizeVersion dep.version }

/-- The `supportedRuntimes` key set in `ValidateForCVECheck`. -/
def supportedRuntimesList : List String :=
  ["go", "node", "npm", "python", "pip", "java", "maven", "gradle",
   "dotnet", "nuget", "ruby", "gem", "php", "composer", "rust", "cargo"]

/-- Embeds `ValidateForCVECheck`. -/
def ValidateForCVECheck (dep : DependencyInfo) : Bool :=
  if goTrimSpace dep.name = "" then false
  else if goTrimSpace dep.version = "" then false
  else supportedRuntimesList.contains (goToLower dep.runtime)

/-- One part of `toTitleCase`: upper-case the first byte, lower-case the
rest (ASCII model of the Go byte slicing). -/
def titleCasePart (part : String) : String :=
  match part.data with
  | [] => part
  | c :: rest => String.mk (Char.toUpper c :: rest.map Char.toLower)

/-- Embeds `toTitleCase`. -/
def toTitleCase (s : String) : String :=
  if s = "" then s
  else goJoin ((goSplit s ".").map titleCasePart) "."

/-- The duplicate-removal pass at the end of `GetSuggestedNames`
(keeps the first occurrence of each name, preserving order). -/
def dedupFirstAux : List String → List String → List String
  | _, [] => []
  | seen, x :: rest =>
    if seen.contains x then dedupFirstAux seen rest
    else x :: dedupFirstAux (x :: seen) rest

/-- Embeds `GetSuggestedNames`. -/
def GetSuggestedNames (dep : DependencyInfo) : List String :=
  let baseName := NormalizeName dep.name dep.runtime
  let rt := goToLower dep.runtime
  let extra : List String :=
    if rt = "python" ∨ rt = "pip" ∨ rt = "rust" ∨ rt = "cargo" then
      (if goContains baseName "-" then [goReplaceAll baseName "-" "_"] else []) ++
      (if goContains baseName "_" then [goReplaceAll baseName "_" "-"] else [])
    else if rt = "dotnet" ∨ rt = "nuget" then
      let lowerName := goToLower baseName
      let titleName := toTitleCase baseName
      (if lowerName ≠ baseName then [lowerName] else []) ++
      (if titleName ≠ baseName ∧ titleName ≠ lowerName then [titleName] else [])
    else []
  dedupFirstAux [] (baseName :: extra)

/-! ## CVEHelper: OSV types, severities, lookup and per-dependency check -/

/-- Embeds `OSVEvent`. -/
structure OSVEvent where
  introduced : String := ""
  fixed : String := ""
deriving Repr, DecidableEq, Inhabited

/-- Embeds `OSVRange`. -/
structure OSVRange where
  rangeType : String := ""
  events : List OSVEvent := []
deriving Repr, DecidableEq, Inhabited

/-- Embeds `OSVAffected` (the `Package` sub-record carries no
claim-relevant data and is elided). -/
structure OSVAffected where
  ranges : List OSVRange := []
deriving Repr, DecidableEq, Inhabited

/-- Embeds `OSVReference`. -/
structure OSVReference where
  refType : String := ""
  url : String := ""
deriving Repr, DecidableEq, Inhabited

/-- Embeds `OSVVulnerability`. -/
structure OSVVulnerability where
  id : String := ""
  summary : String := ""
  details : String := ""
  affects : List OSVAffected := []
  references : List OSVReference := []
deriving Repr, DecidableEq, Inhabited

/-- Embeds the `CVESeverity` string constants. -/
def SeverityCritical : String := "CRITICAL"

/-- `SeverityHigh`. -/
def SeverityHigh : String := "HIGH"

/-- `SeverityMedium`. -/
def SeverityMedium : String := "MEDIUM"

/-- `SeverityLow`. -/
def SeverityLow : String := "LOW"

/-- Embeds `VulnerabilityInfo` (time fields and the unused CVSS
sub-scores are elided; `Score` is a `Rat`, see the header comment). -/
structure VulnerabilityInfo where
  id : String := ""
  cve : String := ""
  summary : String := ""
  description : String := ""
  severity : String := ""
  score : Rat := 0
  affectedVersions : List String := []
  patchedVersions : List String := []
  references : List String := []
  attackVector : String := ""
deriving Repr, DecidableEq, Inhabited

/-- Embeds `DependencyVulnerabilityResult` (the `CheckedAt` timestamp is
elided). -/
structure DependencyVulnerabilityResult where
  dependency : DependencyInfo
  vulnerabilities : List VulnerabilityInfo := []
  isVulnerable : Bool := false
  totalCount : Nat := 0
  criticalCount : Nat := 0
  highCount : Nat := 0
  mediumCount : Nat := 0
  lowCount : Nat := 0
  riskScore : Rat := 0
  recommendations : List String := []
  error : String := ""
deriving Repr, DecidableEq, Inhabited

/-- Embeds `getEcosystemForRuntime`. -/
def getEcosystemForRuntime (runtime : String) : String :=
  let rt := goToLower runtime
  if rt = "go" then "Go"
  else if rt = "node" ∨ rt = "npm" then "npm"
  else if rt = "python" ∨ rt = "pip" then "PyPI"
  else if rt = "java" ∨ rt = "maven" then "Maven"
  else if rt = "gradle" then "Maven"
  else if rt = "dotnet" ∨ rt = "nuget" then "NuGet"
  else if rt = "ruby" ∨ rt = "gem" then "RubyGems"
  else if rt = "php" ∨ rt = "composer" then "Packagist"
  else if rt = "rust" ∨ rt = "cargo" then "crates.io"
  else ""

/-- Oracle abstracting the OSV HTTP endpoint: maps the query triple
(package name, ecosystem, version) to the decoded vulnerability list or
to a transport/decoding/status failure message. -/
def OSVOracle : Type := String → String → String → Except String (List OSVVulnerability)

/-- Embeds `checkOSVDatabase`: rejects unsupported runtimes before any
network call, re-normalizes its argument, then queries the oracle with
the normalized name, the mapped ecosystem and the normalized version. -/
def checkOSVDatabase (osv : OSVOracle) (dep : DependencyInfo) :
    Except String (List OSVVulnerability) :=
  let ecosystem := getEcosystemForRuntime dep.runtime
  if ecosystem = "" then Except.error ("unsupported runtime: " ++ dep.runtime)
  else
    let normalizedDep := NormalizeDependencyInfo dep
    osv normalizedDep.name ecosystem normalizedDep.version

/-- Embeds `convertOSVToVulnerabilityInfo`. -/
def convertOSVToVulnerabilityInfo (osvVuln : OSVVulnerability)
    (_dep : DependencyInfo) : VulnerabilityInfo :=
  let vuln : VulnerabilityInfo :=
    { id := osvVuln.id
      summary := osvVuln.summary
      description := osvVuln.details
      affectedVersions := []
      patchedVersions := []
      references := []
      severity := SeverityMedium
      score := 5 }
  let vuln :=
    if goContains (goToUpper osvVuln.id) "CVE-" then { vuln with cve := osvVuln.id }
    else vuln
  let events : List OSVEvent :=
    (osvVuln.affects.map (fun a => (a.ranges.map OSVRange.events).flatten)).flatten
  let vuln :=
    { vuln with
      affectedVersions :=
        vuln.affectedVersions ++
          events.filterMap
            (fun e => if OSVEvent.introduced e ≠ "" then some (OSVEvent.introduced e) else none)
      patchedVersions :=
        vuln.patchedVersions ++
          events.filterMap
            (fun e => if OSVEvent.fixed e ≠ "" then some (OSVEvent.fixed e) else none) }
  { vuln with references := vuln.references ++ osvVuln.references.map OSVReference.url }

/-- Embeds `updateVulnerabilityStats` as a pure state update. -/
def updateVulnerabilityStats (result : DependencyVulnerabilityResult) :
    DependencyVulnerabilityResult :=
  let totalCount := result.vulnerabilities.length
  let isVulnerable := totalCount > 0
  let step := fun (acc : Nat × Nat × Nat × Nat × Rat) (vuln : VulnerabilityInfo) =>
    let (c, h, m, l, s) := acc
    let (c, h, m, l) :=
      if vuln.severity = SeverityCritical then (c + 1, h, m, l)
      else if vuln.severity = SeverityHigh then (c, h + 1, m, l)
      else if vuln.severity = SeverityMedium then (c, h, m + 1, l)
      else if vuln.severity = SeverityLow then (c, h, m, l + 1)
      else (c, h, m, l)
    (c, h, m, l, s + vuln.score)
  let folded := result.vulnerabilities.foldl step
    (result.criticalCount, result.highCount, result.mediumCount, result.lowCount, 0)
  { result with
    totalCount := totalCount
    isVulnerable := isVulnerable
    criticalCount := folded.1
    highCount := folded.2.1
    mediumCount := folded.2.2.1
    lowCount := folded.2.2.2.1
    riskScore :=
      if totalCount > 0 then folded.2.2.2.2 / (totalCount : Rat) else result.riskScore }

/-- Embeds `generateRecommendations`. -/
def generateRecommendations (result : DependencyVulnerabilityResult) : List String :=
  if ¬ result.isVulnerable then
    ["No known vulnerabilities found for this dependency."]
  else
    let recs : List String := []
    let recs :=
      if result.criticalCount > 0 ∨ result.highCount > 0 then
        recs ++ ["URGENT: Update this dependency immediately due to critical/high severity vulnerabilities."]
      else recs
    let recs :=
      if result.vulnerabilities.length > 0 then
        recs ++ ["Review patched versions and update to the latest secure version."]
      else recs
    let recs :=
      if result.riskScore > 7 then
        recs ++ ["Consider finding alternative dependencies with better security track records."]
      else recs
    if result.vulnerabilities.any (fun v => v.attackVector = "NETWORK") then
      recs ++ ["Network-based vulnerabilities detected. Review network exposure and access controls."]
    else recs

/-- The retry loop over `alternatives[1:]` in
`CheckDependencyVulnerabilities`: the first alternative name whose OSV
check succeeds with a nonempty vulnerability list wins; alternatives
that fail, or succeed with zero vulnerabilities, are skipped. -/
def tryAlternatives (osv : OSVOracle) (normalizedDep : DependencyInfo) :
    List String → Option (List OSVVulnerability)
  | [] => none
  | altName :: rest =>
    let altDep := { normalizedDep with name := altName }
    match checkOSVDatabase osv altDep with
    | Except.ok altVulns =>
      if altVulns.length > 0 then some altVulns
      else tryAlternatives osv normalizedDep rest
    | Except.error _ => tryAlternatives osv normalizedDep rest

/-- The Go error message for an invalid dependency. -/
def invalidDepMsg (nd : DependencyInfo) : String :=
  "Invalid dependency for CVE check: name=" ++ sq ++ nd.name ++ sq ++
    ", version=" ++ sq ++ nd.version ++ sq ++ ", runtime=" ++ sq ++ nd.runtime ++ sq

/-- Embeds `CheckDependencyVulnerabilities`. The second component is the
Go `error` return value; every return site in the source is
`return result, nil`, so it is `none` at every exit. -/
def CheckDependencyVulnerabilities (osv : OSVOracle) (dep : DependencyInfo) :
    DependencyVulnerabilityResult × Option String :=
  let normalizedDep := NormalizeDependencyInfo dep
  let result : DependencyVulnerabilityResult :=
    { dependency := normalizedDep, vulnerabilities := [], isVulnerable := false }
  if ¬ ValidateForCVECheck normalizedDep then
    ({ result with error := invalidDepMsg normalizedDep }, none)
  else
    let outcome : List OSVVulnerability × Option String :=
      match checkOSVDatabase osv normalizedDep with
      | Except.ok vulns => (vulns, none)
      | Except.error e =>
        match tryAlternatives osv normalizedDep ((GetSuggestedNames normalizedDep).drop 1) with
        | some altVulns => (altVulns, none)
        | none => ([], some e)
    let result :=
      match outcome.2 with
      | some e => { result with error := "OSV check failed: " ++ e }
      | none => result
    let result :=
      { result with
        vulnerabilities :=
          outcome.1.map (fun v => convertOSVToVulnerabilityInfo v normalizedDep) }
    let result := updateVulnerabilityStats result
    let result := { result with recommendations := generateRecommendations result }
    (result, none)

/-! ## model.ScanFinding / model.ScanSummary and the SharedScanner -/

/-- Embeds `model.ScanFinding`. -/
structure ScanFinding where
  dependency : String := ""
  version : String := ""
  severity : String := ""
  vulnerabilityIDs : List String := []
  recommendation : String := ""
deriving Repr, DecidableEq, Inhabited

/-- Embeds `model.ScanSummary`. All counts originate from list lengths
and unit increments, hence `Nat`. -/
structure ScanSummary where
  totalDependencies : Nat := 0
  totalVulnerabilities : Nat := 0
  critical : Nat := 0
  high : Nat := 0
  medium : Nat := 0
  low : Nat := 0
  ignored : Nat := 0
  none : Nat := 0
deriving Repr, DecidableEq, Inhabited

/-- Embeds `DependencyWithVulnerabilities`. -/
structure DependencyWithVulnerabilities where
  name : String := ""
  version : String := ""
  owner : String := ""
  repo : String := ""
  repositoryURL : String := ""
  runtime : String := ""
  isGitHub : Bool := false
  vulnerabilities : List VulnerabilityInfo := []
  riskScore : Rat := 0
deriving Repr, DecidableEq, Inhabited

/-- Embeds `SharedScanner` (the `cveService` field holds no state beyond
its collaborators and is elided; the oracle is passed explicitly). -/
structure SharedScanner where
  maxConcurrent : Nat
deriving Repr, DecidableEq

/-- Embeds `NewSharedScanner`: a non-positive requested cap falls back to
the default of 10. -/
def NewSharedScanner (maxConcurrent : Int) : SharedScanner :=
  if maxConcurrent ≤ 0 then { maxConcurrent := 10 }
  else { maxConcurrent := maxConcurrent.toNat }

/-- The six accumulated outputs of `ScanDependenciesWithControl`. -/
structure ScanBatchResult where
  findings : List ScanFinding := []
  depsWithVulns : List DependencyWithVulnerabilities := []
  totalCritical : Nat := 0
  totalHigh : Nat := 0
  totalMedium : Nat := 0
  totalLow : Nat := 0
deriving Repr, DecidableEq, Inhabited

/-- The body of one worker goroutine in `ScanDependenciesWithControl`
(the part after the semaphore acquire, with the context not cancelled):
check one dependency, derive the severity label, the vulnerability-id
list and the first recommendation, and produce the finding plus the
enriched dependency and the four severity count contributions. `none`
models the `if err != nil { return }` skip branch, in which the worker
contributes nothing. -/
def scanOneDependency (osv : OSVOracle) (dependency : DependencyInfo) :
    Option (ScanFinding × DependencyWithVulnerabilities × Nat × Nat × Nat × Nat) :=
  match CheckDependencyVulnerabilities osv dependency with
  | (_, some _) => none
  | (result, Option.none) =>
    let severity :=
      if result.criticalCount > 0 then "critical"
      else if result.highCount > 0 then "high"
      else if result.mediumCount > 0 then "medium"
      else if result.lowCount > 0 then "low"
      else "none"
    let vulnIDs := result.vulnerabilities.map VulnerabilityInfo.id
    let recommendation := result.recommendations.getD 0 ""
    let finding : ScanFinding :=
      { dependency := dependency.name
        version := dependency.version
        severity := severity
        vulnerabilityIDs := vulnIDs
        recommendation := recommendation }
    let depWithVuln : DependencyWithVulnerabilities :=
      { name := dependency.name
        version := dependency.version
        owner := dependency.owner
        repo := dependency.repo
        repositoryURL := dependency.githubURL
        runtime := dependency.runtime
        isGitHub := dependency.isGitHubRepo
        vulnerabilities := result.vulnerabilities
        riskScore := result.riskScore }
    some (finding, depWithVuln, result.criticalCount, result.highCount,
          result.mediumCount, result.lowCount)

/-- Embeds `ScanDependenciesWithControl`. The fan-out merges each
worker's contribution into the shared accumulator under one mutex; the
multiset of contributions is independent of the completion order, and
this embedding fixes the dispatch order as the completion order (one
admissible interleaving). The function has no error return in the
source: a batch never fails as a whole. `scanFoldStep` is the merge of
one worker's contribution into the accumulator. -/
def scanFoldStep (osv : OSVOracle) (acc : ScanBatchResult) (dep : DependencyInfo) :
    ScanBatchResult :=
  match scanOneDependency osv dep with
  | Option.none => acc
  | some (finding, depWithVuln, c, h, m, l) =>
    { findings := acc.findings ++ [finding]
      depsWithVulns := acc.depsWithVulns ++ [depWithVuln]
      totalCritical := acc.totalCritical + c
      totalHigh := acc.totalHigh + h
      totalMedium := acc.totalMedium + m
      totalLow := acc.totalLow + l }

/-- The driver loop of `ScanDependenciesWithControl`. -/
def ScanDependenciesWithControl (osv : OSVOracle)
    (dependencies : List DependencyInfo) : ScanBatchResult :=
  if dependencies.length = 0 then {} else
  dependencies.foldl (scanFoldStep osv) {}

/-! ## SeverityAggregator -/

/-- The fixed-key `severityCount` map of `AggregateVulnerabilitySummary`
as a record. -/
structure SeverityCount where
  critical : Nat := 0
  high : Nat := 0
  medium : Nat := 0
  low : Nat := 0
  none : Nat := 0
  ignored : Nat := 0
deriving Repr, DecidableEq, Inhabited

/-- One iteration of the loop in `AggregateVulnerabilitySummary`:
classify a finding into its severity bucket and add its vulnerability
count to the running total. The source guards the indexed increment
with `sev == "critical" || sev == "high" || sev == "medium" ||
sev == "low"`; the chain below expands that guard plus the
`severityCount[sev]++` per matching key. -/
def bucketStep (acc : SeverityCount × Nat) (f : ScanFinding) : SeverityCount × Nat :=
  let sev := goToLower f.severity
  let vulnCount := f.vulnerabilityIDs.length
  let totalVulns := acc.2 + vulnCount
  let sc := acc.1
  let sc :=
    if vulnCount = 0 then { sc with none := sc.none + 1 }
    else if sev = "critical" then { sc with critical := sc.critical + 1 }
    else if sev = "high" then { sc with high := sc.high + 1 }
    else if sev = "medium" then { sc with medium := sc.medium + 1 }
    else if sev = "low" then { sc with low := sc.low + 1 }
    else { sc with ignored := sc.ignored + 1 }
  (sc, totalVulns)

/-- Embeds `AggregateVulnerabilitySummary`. -/
def AggregateVulnerabilitySummary (findings : List ScanFinding) : ScanSummary :=
  let folded := findings.foldl bucketStep ({}, 0)
  { totalDependencies := findings.length
    totalVulnerabilities := folded.2
    critical := folded.1.critical
    high := folded.1.high
    medium := folded.1.medium
    low := folded.1.low
    ignored := folded.1.ignored
    none := folded.1.none }

/-- Embeds `EvaluatePolicy`: iterate `failOn` in order; the `switch`
recognizes only the literals "critical" and "high"; any other entry
falls through to the next iteration. -/
def EvaluatePolicy (summary : ScanSummary) (failOn : List String) : String × String :=
  match failOn with
  | [] => ("pass", "No blocking vulnerabilities found")
  | sev :: rest =>
    if sev = "critical" then
      if summary.critical > 0 then ("fail", "Critical severity vulnerabilities found")
      else EvaluatePolicy summary rest
    else if sev = "high" then
      if summary.high > 0 then ("fail", "High severity vulnerabilities found")
      else EvaluatePolicy summary rest
    else EvaluatePolicy summary rest

/-! ## Monitoring-job registry (DependenciesService)

UUIDs (job ids, app ids) and stop channels are modelled as `Nat`
identifiers; the fresh `uuid.New()` and the fresh `make(chan struct{})`
of `StartMonitoringApplication` are passed in as parameters. The
background goroutine's registration of its job context is modelled as
taking effect with the `Start` call (the goroutine runs it
unconditionally before its ticker loop); the tick loop itself, being
timer-driven, is not part of the registry state transition. `apps`
holds the app ids for which `getAppByID` and the runtime lookup
succeed; app/runtime-resolution failures return the lookup error. Go's
map iteration order in `StopMonitoringApplication` is unspecified; the
association list fixes insertion order as one admissible iteration
order. -/

/-- Embeds `entity.MonitoringJob` (timestamps and `CreatedBy` elided). -/
structure MonitoringJob where
  id : Nat
  appIDs : List Nat
  status : String := "running"
deriving Repr, DecidableEq

/-- Embeds `MonitoringJobContext` (the `Progress` record holds only
timing counters irrelevant to the registry claims and is elided;
`stopChanID` identifies the job's `StopChan`). -/
structure MonitoringJobContext where
  job : MonitoringJob
  stopChanID : Nat
deriving Repr, DecidableEq

/-- The registry-relevant state of `DependenciesService`: the
`activeJobs` map guarded by `jobsMutex`, plus the set of resolvable
applications and the set of stop channels that have been closed. -/
structure RegistryState where
  apps : List Nat := []
  activeJobs : List (Nat × MonitoringJobContext) := []
  closedChans : List Nat := []
deriving Repr, DecidableEq

/-- Whether a job context's `Job.AppIDs` contains the given app id. -/
def jobHasApp (appID : Nat) (entry : Nat × MonitoringJobContext) : Bool :=
  entry.2.job.appIDs.contains appID

/-- Number of registered jobs whose `AppIDs` contain the given app. -/
def countJobsFor (st : RegistryState) (appID : Nat) : Nat :=
  st.activeJobs.countP (jobHasApp appID)

/-- Embeds `StartMonitoringApplication`: resolve the app (and its
runtime), then register a fresh job context keyed by a fresh job id and
launch the ticker loop. There is no check whether a job for `appID` is
already registered. -/
def StartMonitoringApplication (st : RegistryState) (freshJobID freshChanID appID : Nat) :
    RegistryState × Option String :=
  if ¬ st.apps.contains appID then (st, some "application not found")
  else
    ({ st with
        activeJobs := st.activeJobs ++
          [(freshJobID,
            { job := { id := freshJobID, appIDs := [appID], status := "running" }
              stopChanID := freshChanID })] },
     none)

/-- The `for jobID, jobCtx := range s.activeJobs` search in
`StopMonitoringApplication`: the first entry whose `AppIDs` contains the
app is removed, returning it and the remaining entries in order. -/
def extractFirstJobFor (appID : Nat) :
    List (Nat × MonitoringJobContext) →
      Option ((Nat × MonitoringJobContext) × List (Nat × MonitoringJobContext))
  | [] => none
  | entry :: rest =>
    if jobHasApp appID entry then some (entry, rest)
    else
      match extractFirstJobFor appID rest with
      | some (found, remaining) => some (found, entry :: remaining)
      | none => none

/-- Embeds `StopMonitoringApplication`: resolve the app; close the stop
channel of the first matching job and delete it from the map, all under
the write lock, returning immediately (no join on the goroutine); error
when no job for the app is registered. -/
def StopMonitoringApplication (st : RegistryState) (appID : Nat) :
    RegistryState × Option String :=
  if ¬ st.apps.contains appID then (st, some "application not found")
  else
    match extractFirstJobFor appID st.activeJobs with
    | some (entry, remaining) =>
      ({ st with
          activeJobs := remaining
          closedChans := st.closedChans ++ [entry.2.stopChanID] },
       none)
    | none => (st, some ("monitoring job not found for app_id: " ++ toString appID))

/-- The claim-relevant part of the status map built by
`GetMonitoringStatus`. -/
structure MonitoringStatus where
  monitoring : Bool
  jobID : Option Nat := Option.none
deriving Repr, DecidableEq

/-- Embeds `GetMonitoringStatus`: a read-lock scan of `activeJobs`; the
first job whose `AppIDs` contains the app yields a monitoring=true
snapshot, otherwise monitoring=false. -/
def GetMonitoringStatus (st : RegistryState) (appID : Nat) :
    MonitoringStatus × Option String :=
  if ¬ st.apps.contains appID then ({ monitoring := false }, some "application not found")
  else
    match st.activeJobs.find? (jobHasApp appID) with
    | some entry => ({ monitoring := true, jobID := some entry.1 }, none)
    | Option.none => ({ monitoring := false }, none)

/-! ## Bounded-concurrency semantics of the scan fan-out

`ScanDependenciesWithControl` acquires a slot on the buffered channel
`semaphore` (capacity `maxConcurrent`) before spawning each worker and
each worker releases its slot when it finishes; a lookup is in flight
only while its worker holds a slot. The transition system below is the
small-step semantics of that loop: `dispatch` is the main loop sending
on the channel and spawning a worker (blocked while the buffer is
full), `complete` is a worker finishing and receiving from the
channel. -/

/-- A scheduler state of one `ScanDependenciesWithControl` call:
`remaining` dependencies not yet dispatched, `inFlight` workers
currently holding a semaphore slot. -/
structure ScanExecState where
  remaining : Nat
  inFlight : Nat
deriving Repr, DecidableEq

/-- One scheduling step of the fan-out with channel capacity `k`. -/
inductive ScanStep (k : Nat) : ScanExecState → ScanExecState → Prop
  | dispatch (r f : Nat) (hf : f < k) :
      ScanStep k ⟨r + 1, f⟩ ⟨r, f + 1⟩
  | complete (r f : Nat) :
      ScanStep k ⟨r, f + 1⟩ ⟨r, f⟩

/-- States reachable by the fan-out over `n` dependencies with channel
capacity `k`, starting before any dispatch. -/
inductive ScanReach (k n : Nat) : ScanExecState → Prop
  | init : ScanReach k n ⟨n, 0⟩
  | step {s t : ScanExecState} : ScanReach k n s → ScanStep k s t → ScanReach k n t

/-! ## Helper lemmas -/

theorem updateStats_vulnerabilities (r : DependencyVulnerabilityResult) :
    (updateVulnerabilityStats r).vulnerabilities = r.vulnerabilities := rfl

theorem updateStats_error (r : DependencyVulnerabilityResult) :
    (updateVulnerabilityStats r).error = r.error := rfl

theorem check_snd_eq_none (osv : OSVOracle) (dep : DependencyInfo) :
    (CheckDependencyVulnerabilities osv dep).2 = Option.none := by
  by_cases hv : ValidateForCVECheck (NormalizeDependencyInfo dep) = true
  · simp [CheckDependencyVulnerabilities, hv]
  · simp only [CheckDependencyVulnerabilities, Bool.not_eq_true] at hv ⊢
    simp [hv]

theorem check_error_of_ok (osv : OSVOracle) (dep : DependencyInfo)
    (vulns : List OSVVulnerability)
    (hv : ValidateForCVECheck (NormalizeDependencyInfo dep) = true)
    (h : checkOSVDatabase osv (NormalizeDependencyInfo dep) = Except.ok vulns) :
    (CheckDependencyVulnerabilities osv dep).1.error = "" ∧
      (CheckDependencyVulnerabilities osv dep).1.vulnerabilities =
        vulns.map (fun v => convertOSVToVulnerabilityInfo v (NormalizeDependencyInfo dep)) := by
  simp only [CheckDependencyVulnerabilities, hv, h, not_true, ite_false, if_false]
  exact ⟨rfl, rfl⟩

theorem check_error_of_allfail (osv : OSVOracle) (dep : DependencyInfo) (e : String)
    (hv : ValidateForCVECheck (NormalizeDependencyInfo dep) = true)
    (h1 : checkOSVDatabase osv (NormalizeDependencyInfo dep) = Except.error e)
    (h2 : tryAlternatives osv (NormalizeDependencyInfo dep)
        ((GetSuggestedNames (NormalizeDependencyInfo dep)).drop 1) = Option.none) :
    (CheckDependencyVulnerabilities osv dep).1.error = "OSV check failed: " ++ e ∧
      (CheckDependencyVulnerabilities osv dep).1.vulnerabilities = [] := by
  simp only [CheckDependencyVulnerabilities, hv, h1, h2, not_true, ite_false, if_false]
  exact ⟨rfl, rfl⟩

theorem check_error_of_altok (osv : OSVOracle) (dep : DependencyInfo) (e : String)
    (altVulns : List OSVVulnerability)
    (hv : ValidateForCVECheck (NormalizeDependencyInfo dep) = true)
    (h1 : checkOSVDatabase osv (NormalizeDependencyInfo dep) = Except.error e)
    (h2 : tryAlternatives osv (NormalizeDependencyInfo dep)
        ((GetSuggestedNames (NormalizeDependencyInfo dep)).drop 1) = some altVulns) :
    (CheckDependencyVulnerabilities osv dep).1.error = "" ∧
      (CheckDependencyVulnerabilities osv dep).1.vulnerabilities =
        altVulns.map (fun v => convertOSVToVulnerabilityInfo v (NormalizeDependencyInfo dep)) := by
  simp only [CheckDependencyVulnerabilities, hv, h1, h2, not_true, ite_false, if_false]
  exact ⟨rfl, rfl⟩

theorem scanOne_spec (osv : OSVOracle) (dep : DependencyInfo) :
    ∃ f rest, scanOneDependency osv dep = some (f, rest) ∧
      f.dependency = dep.name ∧ f.version = dep.version ∧
      f.vulnerabilityIDs =
        ((CheckDependencyVulnerabilities osv dep).1.vulnerabilities).map VulnerabilityInfo.id := by
  have hr : CheckDependencyVulnerabilities osv dep
      = ((CheckDependencyVulnerabilities osv dep).1, Option.none) := by
    rw [← check_snd_eq_none osv dep]
  unfold scanOneDependency
  rw [hr]
  exact ⟨_, _, rfl, rfl, rfl, rfl⟩

theorem scan_foldl_spec (osv : OSVOracle) :
    ∀ (deps : List DependencyInfo) (acc : ScanBatchResult),
    ((deps.foldl (scanFoldStep osv) acc).findings).map ScanFinding.dependency
        = acc.findings.map ScanFinding.dependency ++ deps.map DependencyInfo.name
    ∧ ((deps.foldl (scanFoldStep osv) acc).findings).map ScanFinding.vulnerabilityIDs
        = acc.findings.map ScanFinding.vulnerabilityIDs
            ++ deps.map (fun d =>
                ((CheckDependencyVulnerabilities osv d).1.vulnerabilities).map VulnerabilityInfo.id)
    ∧ ((deps.foldl (scanFoldStep osv) acc).findings).length
        = acc.findings.length + deps.length
  | [], acc => by simp
  | d :: ds, acc => by
    obtain ⟨f, rest, hsome, hdep, hver, hids⟩ := scanOne_spec osv d
    have hstep : (scanFoldStep osv acc d).findings = acc.findings ++ [f] := by
      unfold scanFoldStep
      rw [hsome]
    obtain ⟨ih1, ih2, ih3⟩ := scan_foldl_spec osv ds (scanFoldStep osv acc d)
    refine ⟨?_, ?_, ?_⟩
    · rw [List.foldl_cons] at *
      rw [ih1, hstep]
      simp [hdep]
    · rw [List.foldl_cons] at *
      rw [ih2, hstep]
      simp [hids]
    · rw [List.foldl_cons] at *
      rw [ih3, hstep]
      simp only [List.length_append, List.length_cons, List.length_nil]
      omega

/-- C10: `CheckDependencyVulnerabilities` returns a nil Go error on every
input and every oracle outcome — invalid input and lookup failures are
recorded only inside the returned result — so the error-handling skip
branch of the worker in `ScanDependenciesWithControl` is never taken and
every dependency contributes exactly one finding. -/
theorem check_never_errors_scan_never_drops (osv : OSVOracle) (dep : DependencyInfo)
    (deps : List DependencyInfo) :
    (CheckDependencyVulnerabilities osv dep).2 = Option.none ∧
      (ScanDependenciesWithControl osv deps).findings.length = deps.length := by
  refine ⟨check_snd_eq_none osv dep, ?_⟩
  cases deps with
  | nil => rfl
  | cons d ds =>
    have h := (scan_foldl_spec osv (d :: ds) {}).2.2
    unfold ScanDependenciesWithControl
    simpa using h

/-- C9: scanning an empty dependency list returns the empty batch result
(no findings, no enriched dependencies, all four severity totals zero),
and aggregating its findings yields the all-zero summary. The Go
function has no error return value, so no error is possible. -/
theorem scan_empty_input (osv : OSVOracle) :
    ScanDependenciesWithControl osv [] = ({} : ScanBatchResult) ∧
      AggregateVulnerabilitySummary (ScanDependenciesWithControl osv []).findings
        = ({} : ScanSummary) :=
  ⟨rfl, rfl⟩

theorem convert_id (v : OSVVulnerability) (dep : DependencyInfo) :
    (convertOSVToVulnerabilityInfo v dep).id = v.id := by
  unfold convertOSVToVulnerabilityInfo
  by_cases h : goContains (goToUpper v.id) "CVE-" = true
  · simp [h]
  · simp [h]

theorem scan_cons_eq (osv : OSVOracle) (d : DependencyInfo) (ds : List DependencyInfo) :
    ScanDependenciesWithControl osv (d :: ds) = (d :: ds).foldl (scanFoldStep osv) {} := by
  unfold ScanDependenciesWithControl
  simp

/-- C2: partial-failure isolation. When the OSV lookup fails for `B`
(on its normalized name and on every alternative spelling) but succeeds
for `A` and `C`, the batch scan over `[A, B, C]` still yields exactly
one finding per dependency in order; `A`'s and `C`'s findings carry
their vulnerability ids, `B`'s finding carries zero vulnerability ids,
and `B`'s per-dependency check result is error-annotated. The batch
call itself has no error return value in the source, so one
dependency's failure can never abort the batch. -/
theorem scan_partial_failure (osv : OSVOracle) (A B C : DependencyInfo)
    (va vc : List OSVVulnerability) (eB : String)
    (hvA : ValidateForCVECheck (NormalizeDependencyInfo A) = true)
    (hvB : ValidateForCVECheck (NormalizeDependencyInfo B) = true)
    (hvC : ValidateForCVECheck (NormalizeDependencyInfo C) = true)
    (hA : checkOSVDatabase osv (NormalizeDependencyInfo A) = Except.ok va)
    (hB1 : checkOSVDatabase osv (NormalizeDependencyInfo B) = Except.error eB)
    (hB2 : tryAlternatives osv (NormalizeDependencyInfo B)
        ((GetSuggestedNames (NormalizeDependencyInfo B)).drop 1) = Option.none)
    (hC : checkOSVDatabase osv (NormalizeDependencyInfo C) = Except.ok vc) :
    ((ScanDependenciesWithControl osv [A, B, C]).findings).map ScanFinding.dependency
        = [A.name, B.name, C.name]
    ∧ ((ScanDependenciesWithControl osv [A, B, C]).findings).map ScanFinding.vulnerabilityIDs
        = [va.map OSVVulnerability.id, [], vc.map OSVVulnerability.id]
    ∧ (CheckDependencyVulnerabilities osv B).1.error = "OSV check failed: " ++ eB
    ∧ (CheckDependencyVulnerabilities osv B).1.vulnerabilities = [] := by
  obtain ⟨hBe, hBv⟩ := check_error_of_allfail osv B eB hvB hB1 hB2
  obtain ⟨hAe, hAv⟩ := check_error_of_ok osv A va hvA hA
  obtain ⟨hCe, hCv⟩ := check_error_of_ok osv C vc hvC hC
  have h1 := (scan_foldl_spec osv [A, B, C] {}).1
  have h2 := (scan_foldl_spec osv [A, B, C] {}).2.1
  rw [scan_cons_eq]
  refine ⟨?_, ?_, hBe, hBv⟩
  · simpa using h1
  · rw [h2]
    simp only [List.map_cons, List.map_nil, List.nil_append, hAv, hBv, hCv]
    simp [List.map_map, Function.comp, convert_id]

/-- Witness for C2 at a concrete oracle (failing only for "libb") and a
concrete dependency triple. -/
theorem scan_partial_failure_witness :
    (let osv : OSVOracle := fun name _ _ =>
      if name = "libb" then Except.error "boom"
      else if name = "liba" then Except.ok [{ id := "CVE-2024-1" }]
      else Except.ok []
    let A : DependencyInfo := { name := "liba", version := "1.0.0", runtime := "python" }
    let B : DependencyInfo := { name := "libb", version := "1.0.0", runtime := "python" }
    let C : DependencyInfo := { name := "libc", version := "1.0.0", runtime := "python" }
    ((ScanDependenciesWithControl osv [A, B, C]).findings).map ScanFinding.dependency
        = ["liba", "libb", "libc"]
    ∧ ((ScanDependenciesWithControl osv [A, B, C]).findings).map ScanFinding.vulnerabilityIDs
        = [["CVE-2024-1"], [], []]
    ∧ (CheckDependencyVulnerabilities osv B).1.error = "OSV check failed: boom"
    ∧ (CheckDependencyVulnerabilities osv B).1.vulnerabilities = []) :=
  scan_partial_failure _ _ _ _ [{ id := "CVE-2024-1" }] [] "boom"
    rfl rfl rfl rfl rfl rfl rfl

theorem bucket_foldl (l : List ScanFinding) : ∀ (sc : SeverityCount) (tv : Nat),
    l.foldl bucketStep (sc, tv) =
      ({ critical := sc.critical + l.countP (fun f =>
            f.vulnerabilityIDs.length != 0 && goToLower f.severity == "critical")
         high := sc.high + l.countP (fun f =>
            f.vulnerabilityIDs.length != 0 && goToLower f.severity == "high")
         medium := sc.medium + l.countP (fun f =>
            f.vulnerabilityIDs.length != 0 && goToLower f.severity == "medium")
         low := sc.low + l.countP (fun f =>
            f.vulnerabilityIDs.length != 0 && goToLower f.severity == "low")
         none := sc.none + l.countP (fun f => f.vulnerabilityIDs.length == 0)
         ignored := sc.ignored + l.countP (fun f =>
            f.vulnerabilityIDs.length != 0 &&
              !(goToLower f.severity == "critical" || goToLower f.severity == "high" ||
                goToLower f.severity == "medium" || goToLower f.severity == "low")) },
       tv + (l.map (fun f => f.vulnerabilityIDs.length)).sum) := by
  induction l with
  | nil => intro sc tv; simp
  | cons f fs ih =>
    intro sc tv
    rw [List.foldl_cons]
    by_cases h0 : f.vulnerabilityIDs.length = 0
    · have hb : bucketStep (sc, tv) f =
          ({ sc with none := sc.none + 1 }, tv + f.vulnerabilityIDs.length) := by
        simp [bucketStep, h0]
      rw [hb, ih]
      simp only [Prod.mk.injEq, SeverityCount.mk.injEq, List.countP_cons, List.map_cons,
        List.sum_cons, h0]
      simp [h0]
      omega
    · by_cases hc : goToLower f.severity = "critical"
      · have hb : bucketStep (sc, tv) f =
            ({ sc with critical := sc.critical + 1 }, tv + f.vulnerabilityIDs.length) := by
          simp [bucketStep, h0, hc]
        rw [hb, ih]
        simp only [Prod.mk.injEq, SeverityCount.mk.injEq, List.countP_cons, List.map_cons,
          List.sum_cons, h0, hc]
        simp [h0, hc]
        omega
      · by_cases hh : goToLower f.severity = "high"
        · have hb : bucketStep (sc, tv) f =
              ({ sc with high := sc.high + 1 }, tv + f.vulnerabilityIDs.length) := by
            simp [bucketStep, h0, hc, hh]
          rw [hb, ih]
          simp only [Prod.mk.injEq, SeverityCount.mk.injEq, List.countP_cons, List.map_cons,
            List.sum_cons]
          simp [h0, hc, hh]
          omega
        · by_cases hm : goToLower f.severity = "medium"
          · have hb : bucketStep (sc, tv) f =
                ({ sc with medium := sc.medium + 1 }, tv + f.vulnerabilityIDs.length) := by
              simp [bucketStep, h0, hc, hh, hm]
            rw [hb, ih]
            simp only [Prod.mk.injEq, SeverityCount.mk.injEq, List.countP_cons, List.map_cons,
              List.sum_cons]
            simp [h0, hc, hh, hm]
            omega
          · by_cases hl : goToLower f.severity = "low"
            · have hb : bucketStep (sc, tv) f =
                  ({ sc with low := sc.low + 1 }, tv + f.vulnerabilityIDs.length) := by
                simp [bucketStep, h0, hc, hh, hm, hl]
              rw [hb, ih]
              simp only [Prod.mk.injEq, SeverityCount.mk.injEq, List.countP_cons, List.map_cons,
                List.sum_cons]
              simp [h0, hc, hh, hm, hl]
              omega
            · have hb : bucketStep (sc, tv) f =
                  ({ sc with ignored := sc.ignored + 1 }, tv + f.vulnerabilityIDs.length) := by
                simp [bucketStep, h0, hc, hh, hm, hl]
              rw [hb, ih]
              simp only [Prod.mk.injEq, SeverityCount.mk.injEq, List.countP_cons, List.map_cons,
                List.sum_cons]
              simp [h0, hc, hh, hm, hl]
              omega

theorem countP_partition_six {α : Type} (p1 p2 p3 p4 p5 p6 : α → Bool)
    (h : ∀ a, (if p1 a then (1 : Nat) else 0) + (if p2 a then 1 else 0)
        + (if p3 a then 1 else 0) + (if p4 a then 1 else 0)
        + (if p5 a then 1 else 0) + (if p6 a then 1 else 0) = 1) :
    ∀ l : List α, l.countP p1 + l.countP p2 + l.countP p3 + l.countP p4 + l.countP p5
        + l.countP p6 = l.length := by
  intro l
  induction l with
  | nil => rfl
  | cons a as ih =>
    simp only [List.countP_cons, List.length_cons]
    have := h a
    omega

theorem agg_characterization (l : List ScanFinding) :
    AggregateVulnerabilitySummary l =
      { totalDependencies := l.length
        totalVulnerabilities := (l.map (fun f => f.vulnerabilityIDs.length)).sum
        critical := l.countP (fun f =>
          f.vulnerabilityIDs.length != 0 && goToLower f.severity == "critical")
        high := l.countP (fun f =>
          f.vulnerabilityIDs.length != 0 && goToLower f.severity == "high")
        medium := l.countP (fun f =>
          f.vulnerabilityIDs.length != 0 && goToLower f.severity == "medium")
        low := l.countP (fun f =>
          f.vulnerabilityIDs.length != 0 && goToLower f.severity == "low")
        ignored := l.countP (fun f =>
          f.vulnerabilityIDs.length != 0 &&
            !(goToLower f.severity == "critical" || goToLower f.severity == "high" ||
              goToLower f.severity == "medium" || goToLower f.severity == "low"))
        none := l.countP (fun f => f.vulnerabilityIDs.length == 0) } := by
  unfold AggregateVulnerabilitySummary
  rw [show ({} : SeverityCount) = SeverityCount.mk 0 0 0 0 0 0 from rfl]
  rw [bucket_foldl]
  simp

/-- C5: permutation invariance of the aggregation — for every findings
list and every permutation of it, `AggregateVulnerabilitySummary`
produces an identical `ScanSummary`; all counts are independent of the
order of the findings. -/
theorem aggregate_perm_invariant (l₁ l₂ : List ScanFinding) (h : l₁.Perm l₂) :
    AggregateVulnerabilitySummary l₁ = AggregateVulnerabilitySummary l₂ := by
  rw [agg_characterization, agg_characterization]
  simp only [ScanSummary.mk.injEq]
  refine ⟨h.length_eq, ?_, h.countP_eq _, h.countP_eq _, h.countP_eq _, h.countP_eq _,
    h.countP_eq _, h.countP_eq _⟩
  exact (h.map (fun f => f.vulnerabilityIDs.length)).sum_eq

/-- Witness for C5 at a concrete permuted pair of findings lists. -/
theorem aggregate_perm_invariant_witness :
    AggregateVulnerabilitySummary
        [{ dependency := "a", severity := "critical", vulnerabilityIDs := ["V1"] },
         { dependency := "b", severity := "odd", vulnerabilityIDs := ["V2", "V3"] },
         { dependency := "c", severity := "high", vulnerabilityIDs := [] }]
      = AggregateVulnerabilitySummary
        [{ dependency := "c", severity := "high", vulnerabilityIDs := [] },
         { dependency := "a", severity := "critical", vulnerabilityIDs := ["V1"] },
         { dependency := "b", severity := "odd", vulnerabilityIDs := ["V2", "V3"] }] :=
  aggregate_perm_invariant _ _ (by decide)

/-- C6: severity bucket assignment. For every findings list the
aggregate counts each finding with zero vulnerability ids in bucket
"none"; each finding with at least one vulnerability id and a
(lower-cased) severity among critical/high/medium/low in that bucket;
and every other finding in bucket "ignored". `totalDependencies` is the
number of findings, `totalVulnerabilities` the sum of the findings'
vulnerability-id counts, and the six buckets partition the findings, so
no finding is dropped. -/
theorem aggregate_bucket_assignment (l : List ScanFinding) :
    AggregateVulnerabilitySummary l =
      { totalDependencies := l.length
        totalVulnerabilities := (l.map (fun f => f.vulnerabilityIDs.length)).sum
        critical := l.countP (fun f =>
          f.vulnerabilityIDs.length != 0 && goToLower f.severity == "critical")
        high := l.countP (fun f =>
          f.vulnerabilityIDs.length != 0 && goToLower f.severity == "high")
        medium := l.countP (fun f =>
          f.vulnerabilityIDs.length != 0 && goToLower f.severity == "medium")
        low := l.countP (fun f =>
          f.vulnerabilityIDs.length != 0 && goToLower f.severity == "low")
        ignored := l.countP (fun f =>
          f.vulnerabilityIDs.length != 0 &&
            !(goToLower f.severity == "critical" || goToLower f.severity == "high" ||
              goToLower f.severity == "medium" || goToLower f.severity == "low"))
        none := l.countP (fun f => f.vulnerabilityIDs.length == 0) }
    ∧ (AggregateVulnerabilitySummary l).none + (AggregateVulnerabilitySummary l).critical
        + (AggregateVulnerabilitySummary l).high + (AggregateVulnerabilitySummary l).medium
        + (AggregateVulnerabilitySummary l).low + (AggregateVulnerabilitySummary l).ignored
        = (AggregateVulnerabilitySummary l).totalDependencies := by
  refine ⟨agg_characterization l, ?_⟩
  rw [agg_characterization l]
  dsimp only
  refine countP_partition_six _ _ _ _ _ _ ?_ l
  intro f
  by_cases h0 : f.vulnerabilityIDs.length = 0
  · simp [h0]
  · by_cases hc : goToLower f.severity = "critical"
    · simp [h0, hc]
    · by_cases hh : goToLower f.severity = "high"
      · simp [h0, hc, hh]
      · by_cases hm : goToLower f.severity = "medium"
        · simp [h0, hc, hh, hm]
        · by_cases hl : goToLower f.severity = "low"
          · simp [h0, hc, hh, hm, hl]
          · simp [h0, hc, hh, hm, hl]

/-- C3 counterexample: a summary with `medium = 2` and
`failOn = ["medium"]` has a nonzero count for a severity listed in
`failOn`, yet `EvaluatePolicy` returns "pass" — the `switch` in the
source recognizes only "critical" and "high", so the claim's
"first severity in failOn whose summary count is nonzero" rule fails
for the severity "medium". -/
theorem evaluatePolicy_medium_counterexample :
    ({ medium := 2 : ScanSummary }.medium ≠ 0)
    ∧ EvaluatePolicy { medium := 2 } ["medium"]
        = ("pass", "No blocking vulnerabilities found") :=
  ⟨by decide, rfl⟩

/-- C3 amended: `EvaluatePolicy` iterates `failOn` in order but
recognizes only the entries "critical" and "high"; it returns "fail"
citing the first entry that is "critical" with a nonzero critical count
or "high" with a nonzero high count; every other entry (e.g. "medium",
"low", or arbitrary strings) is skipped; with no such entry it returns
"pass". -/
theorem evaluatePolicy_first_recognized_match (summary : ScanSummary)
    (failOn : List String) :
    EvaluatePolicy summary failOn =
      match failOn.find? (fun sev =>
          (sev == "critical" && decide (summary.critical > 0))
            || (sev == "high" && decide (summary.high > 0))) with
      | some sev =>
        if sev = "critical" then ("fail", "Critical severity vulnerabilities found")
        else ("fail", "High severity vulnerabilities found")
      | Option.none => ("pass", "No blocking vulnerabilities found") := by
  induction failOn with
  | nil => rfl
  | cons sev rest ih =>
    by_cases hc : sev = "critical"
    · subst hc
      by_cases h : summary.critical > 0
      · simp [EvaluatePolicy, List.find?, h]
      · simp [EvaluatePolicy, List.find?, h, ih]
    · by_cases hh : sev = "high"
      · subst hh
        by_cases h : summary.high > 0
        · simp [EvaluatePolicy, List.find?, h]
        · simp [EvaluatePolicy, List.find?, h, ih]
      · have hc2 : (sev == "critical") = false := by simp [hc]
        have hh2 : (sev == "high") = false := by simp [hh]
        simp [EvaluatePolicy, List.find?, hc, hh, hc2, hh2, ih]

/-- C1 counterexample: starting monitoring twice for the same
application (id 7, resolvable) succeeds both times — the second call
returns no error and the registry then holds two jobs for application 7.
`StartMonitoringApplication` performs no already-monitoring check, so
the single-live-job invariant does not hold. -/
theorem start_twice_two_jobs_counterexample :
    (let st0 : RegistryState := { apps := [7] }
    let r1 := StartMonitoringApplication st0 100 500 7
    let r2 := StartMonitoringApplication r1.1 101 501 7
    r1.2 = Option.none ∧ r2.2 = Option.none ∧ countJobsFor r2.1 7 = 2) :=
  ⟨rfl, rfl, rfl⟩

/-- C1 amended: `StartMonitoringApplication` never rejects a second
start. For every registry state and resolvable application id, a start
call succeeds (no AlreadyMonitoring-class error exists in the source)
and registers one more job for that application — so n start calls
without a stop yield n registered jobs for the same application, not
one. -/
theorem start_always_registers (st : RegistryState) (jobID chanID appID : Nat)
    (h : st.apps.contains appID = true) :
    (StartMonitoringApplication st jobID chanID appID).2 = Option.none
    ∧ countJobsFor (StartMonitoringApplication st jobID chanID appID).1 appID
        = countJobsFor st appID + 1 := by
  unfold StartMonitoringApplication
  simp only [h, Bool.not_eq_true, Bool.true_eq_false, if_false, ite_false, not_true]
  constructor
  · simp
  · simp [countJobsFor, List.countP_append, jobHasApp]

/-- Witness for the amended C1 at a concrete one-app state. -/
theorem start_always_registers_witness :
    (({ apps := [7] } : RegistryState).apps.contains 7 = true)
    ∧ ((StartMonitoringApplication { apps := [7] } 100 500 7).2 = Option.none
      ∧ countJobsFor (StartMonitoringApplication { apps := [7] } 100 500 7).1 7
          = countJobsFor { apps := [7] } 7 + 1) :=
  ⟨rfl, start_always_registers { apps := [7] } 100 500 7 rfl⟩

theorem extractFirstJobFor_none_iff (appID : Nat)
    (jobs : List (Nat × MonitoringJobContext)) :
    extractFirstJobFor appID jobs = Option.none ↔ jobs.countP (jobHasApp appID) = 0 := by
  induction jobs with
  | nil => simp [extractFirstJobFor]
  | cons e rest ih =>
    unfold extractFirstJobFor
    by_cases h : jobHasApp appID e
    · simp [h, List.countP_cons, -List.countP_eq_zero]
    · cases hx : extractFirstJobFor appID rest with
      | none =>
        simp [h, hx, List.countP_cons, -List.countP_eq_zero]
        exact ih.mp hx
      | some p =>
        simp [h, hx, List.countP_cons, -List.countP_eq_zero]
        intro hzero
        exact absurd (ih.mpr hzero) (by simp [hx])

theorem extractFirstJobFor_some_spec (appID : Nat) :
    ∀ (jobs : List (Nat × MonitoringJobContext)) entry rem,
    extractFirstJobFor appID jobs = some (entry, rem) →
      jobHasApp appID entry = true
      ∧ rem.countP (jobHasApp appID) + 1 = jobs.countP (jobHasApp appID) := by
  intro jobs
  induction jobs with
  | nil => intro entry rem h; simp [extractFirstJobFor] at h
  | cons e rest ih =>
    intro entry rem h
    unfold extractFirstJobFor at h
    by_cases hj : jobHasApp appID e
    · simp only [hj, if_true, ite_true, Option.some.injEq, Prod.mk.injEq] at h
      obtain ⟨he, hr⟩ := h
      subst he
      subst hr
      simp [List.countP_cons, hj]
    · simp only [hj, if_false, ite_false, Bool.false_eq_true] at h
      cases hx : extractFirstJobFor appID rest with
      | none => rw [hx] at h; simp at h
      | some p =>
        rw [hx] at h
        simp only [Option.some.injEq, Prod.mk.injEq] at h
        obtain ⟨he, hr⟩ := h
        obtain ⟨ih1, ih2⟩ := ih p.1 p.2 (by rw [hx])
        subst he
        constructor
        · exact ih1
        · rw [← hr]
          simp [List.countP_cons, hj]
          omega

/-- C4: stop semantics and no leak. For a resolvable application:
when no job is registered for it, `StopMonitoringApplication` fails
with the not-monitoring error and leaves the state unchanged; when
exactly one job is registered for it (found as `entry`), the call
returns no error, closes that job's stop channel, removes the job from
the map — after which no job for the application remains and
`GetMonitoringStatus` reports not monitoring. The call is a pure state
transition that signals and returns; it performs no join on the
background task. -/
theorem stop_semantics (st : RegistryState) (appID : Nat)
    (happ : st.apps.contains appID = true) :
    (countJobsFor st appID = 0 →
      StopMonitoringApplication st appID
        = (st, some ("monitoring job not found for app_id: " ++ toString appID)))
    ∧ (∀ entry rem, extractFirstJobFor appID st.activeJobs = some (entry, rem) →
        countJobsFor st appID = 1 →
          (StopMonitoringApplication st appID).2 = Option.none
          ∧ countJobsFor (StopMonitoringApplication st appID).1 appID = 0
          ∧ entry.2.stopChanID ∈ (StopMonitoringApplication st appID).1.closedChans
          ∧ ((GetMonitoringStatus (StopMonitoringApplication st appID).1 appID).1).monitoring
              = false) := by
  have hmem : appID ∈ st.apps := by simpa using happ
  constructor
  · intro hzero
    have hnone : extractFirstJobFor appID st.activeJobs = Option.none :=
      (extractFirstJobFor_none_iff appID st.activeJobs).mpr hzero
    unfold StopMonitoringApplication
    simp [hmem, hnone]
  · intro entry rem hx hone
    obtain ⟨hjob, hcount⟩ := extractFirstJobFor_some_spec appID st.activeJobs entry rem hx
    have hrem : rem.countP (jobHasApp appID) = 0 := by
      unfold countJobsFor at hone
      omega
    have hstop : StopMonitoringApplication st appID =
        ({ st with activeJobs := rem
                   closedChans := st.closedChans ++ [entry.2.stopChanID] }, Option.none) := by
      unfold StopMonitoringApplication
      simp [hmem, hx]
    refine ⟨by rw [hstop], ?_, ?_, ?_⟩
    · rw [hstop]
      exact hrem
    · rw [hstop]
      simp
    · rw [hstop]
      have hfind : rem.find? (jobHasApp appID) = Option.none :=
        List.find?_eq_none.mpr (fun x hx2 => by
          have := List.countP_eq_zero.mp hrem x hx2
          simp [this])
      unfold GetMonitoringStatus
      simp [hmem, hfind]

/-- Witness for C4 at a concrete single-job state. -/
theorem stop_semantics_witness :
    (let st1 : RegistryState :=
      { apps := [7]
        activeJobs :=
          [(100, { job := { id := 100, appIDs := [7], status := "running" }
                   stopChanID := 500 })] }
    countJobsFor st1 7 = 1
    ∧ (StopMonitoringApplication st1 7).2 = Option.none
    ∧ countJobsFor (StopMonitoringApplication st1 7).1 7 = 0
    ∧ (500 : Nat) ∈ (StopMonitoringApplication st1 7).1.closedChans
    ∧ ((GetMonitoringStatus (StopMonitoringApplication st1 7).1 7).1).monitoring = false) :=
  ⟨rfl,
    (stop_semantics
      { apps := [7]
        activeJobs :=
          [(100, { job := { id := 100, appIDs := [7], status := "running" }
                   stopChanID := 500 })] } 7 rfl).2
      (100, { job := { id := 100, appIDs := [7], status := "running" }, stopChanID := 500 })
      [] rfl rfl⟩

theorem scanReach_inFlight_le (k n : Nat) : ∀ s, ScanReach k n s → s.inFlight ≤ k := by
  intro s h
  induction h with
  | init => exact Nat.zero_le k
  | step _ hstep ih =>
    cases hstep with
    | dispatch r f hf => exact hf
    | complete r f => exact Nat.le_of_succ_le (by simpa using ih)

/-- C7: bounded concurrency. For a scanner built by `NewSharedScanner`
with cap `k` and any input of `n > k` dependencies, every state the
fan-out scheduler can reach keeps the number of in-flight lookups at
most `k` — the concurrent-call high-watermark never exceeds the
semaphore capacity. -/
theorem scan_bounded_concurrency (m : Int) (n : Nat) (s : ScanExecState)
    (hn : (NewSharedScanner m).maxConcurrent < n)
    (hr : ScanReach (NewSharedScanner m).maxConcurrent n s) :
    s.inFlight ≤ (NewSharedScanner m).maxConcurrent :=
  scanReach_inFlight_le _ n s hr

/-- Witness for C7: cap 2, three dependencies, after one dispatch. -/
theorem scan_bounded_concurrency_witness :
    ((NewSharedScanner 2).maxConcurrent < 3)
    ∧ (⟨2, 1⟩ : ScanExecState).inFlight ≤ (NewSharedScanner 2).maxConcurrent :=
  ⟨by decide,
    scan_bounded_concurrency 2 3 ⟨2, 1⟩ (by decide)
      (ScanReach.step ScanReach.init (ScanStep.dispatch 2 0 (by decide)))⟩

theorem tryAlternatives_some_ne_nil (osv : OSVOracle) (nd : DependencyInfo) :
    ∀ (alts : List String) (vulns : List OSVVulnerability),
    tryAlternatives osv nd alts = some vulns → vulns ≠ [] := by
  intro alts
  induction alts with
  | nil => intro vulns h; simp [tryAlternatives] at h
  | cons a rest ih =>
    intro vulns h
    simp only [tryAlternatives] at h
    cases hx : checkOSVDatabase osv { nd with name := a } with
    | ok av =>
      rw [hx] at h
      by_cases hlen : av.length > 0
      · simp only [hlen, if_true, ite_true, Option.some.injEq] at h
        subst h
        intro hnil
        rw [hnil] at hlen
        simp at hlen
      · simp only [hlen, if_false, ite_false] at h
        exact ih vulns h
    | error e =>
      rw [hx] at h
      exact ih vulns h

/-- C8 counterexample: a dotnet dependency "MyPkg" whose primary lookup
fails; the alternative spelling "mypkg" proposed by the normalizer
succeeds (with zero vulnerabilities) — yet the original failure is NOT
swallowed: the per-dependency error is still recorded. The retry loop
accepts an alternate only when it returns a nonempty vulnerability
list, so "an alternate succeeds" alone does not clear the failure. -/
theorem retry_success_not_swallowed_counterexample :
    (let osv : OSVOracle := fun name _ _ =>
      if name = "mypkg" then Except.ok []
      else Except.error "OSV API returned status 500"
    let dep : DependencyInfo := { name := "MyPkg", version := "1.0", runtime := "dotnet" }
    ((GetSuggestedNames (NormalizeDependencyInfo dep)).drop 1 = ["mypkg", "Mypkg"])
    ∧ checkOSVDatabase osv (NormalizeDependencyInfo dep)
        = Except.error "OSV API returned status 500"
    ∧ checkOSVDatabase osv { NormalizeDependencyInfo dep with name := "mypkg" }
        = Except.ok []
    ∧ (CheckDependencyVulnerabilities osv dep).1.error
        = "OSV check failed: OSV API returned status 500"
    ∧ (CheckDependencyVulnerabilities osv dep).1.vulnerabilities = []) :=
  ⟨rfl, rfl, rfl, rfl, rfl⟩

/-- C8 amended: when the first normalized-name lookup fails, the check
retries the alternative spellings proposed by the normalizer in order;
if some alternate succeeds with at least one vulnerability, the first
such alternate wins: the original failure is swallowed (no
per-dependency error) and that alternate's vulnerabilities are used; an
alternate that succeeds with zero vulnerabilities does not clear the
failure, and when no alternate yields a nonempty success the
per-dependency error is recorded with zero vulnerabilities. -/
theorem retry_alternates_semantics (osv : OSVOracle) (dep : DependencyInfo) (e : String)
    (hv : ValidateForCVECheck (NormalizeDependencyInfo dep) = true)
    (h1 : checkOSVDatabase osv (NormalizeDependencyInfo dep) = Except.error e) :
    (∀ altVulns, tryAlternatives osv (NormalizeDependencyInfo dep)
        ((GetSuggestedNames (NormalizeDependencyInfo dep)).drop 1) = some altVulns →
      altVulns ≠ []
      ∧ (CheckDependencyVulnerabilities osv dep).1.error = ""
      ∧ (CheckDependencyVulnerabilities osv dep).1.vulnerabilities
          = altVulns.map (fun v => convertOSVToVulnerabilityInfo v (NormalizeDependencyInfo dep)))
    ∧ (tryAlternatives osv (NormalizeDependencyInfo dep)
        ((GetSuggestedNames (NormalizeDependencyInfo dep)).drop 1) = Option.none →
      (CheckDependencyVulnerabilities osv dep).1.error = "OSV check failed: " ++ e
      ∧ (CheckDependencyVulnerabilities osv dep).1.vulnerabilities = []) := by
  constructor
  · intro altVulns h2
    refine ⟨tryAlternatives_some_ne_nil osv (NormalizeDependencyInfo dep) _ altVulns h2, ?_⟩
    exact check_error_of_altok osv dep e altVulns hv h1 h2
  · intro h2
    exact check_error_of_allfail osv dep e hv h1 h2

/-- Witness for the amended C8: the same dotnet dependency where the
alternate "mypkg" now returns one vulnerability — the original failure
is swallowed and the alternate's vulnerability is used. -/
theorem retry_alternates_semantics_witness :
    (let osv : OSVOracle := fun name _ _ =>
      if name = "mypkg" then Except.ok [{ id := "GHSA-1" }]
      else Except.error "OSV API returned status 500"
    let dep : DependencyInfo := { name := "MyPkg", version := "1.0", runtime := "dotnet" }
    ([{ id := "GHSA-1" }] : List OSVVulnerability) ≠ []
    ∧ (CheckDependencyVulnerabilities osv dep).1.error = ""
    ∧ (CheckDependencyVulnerabilities osv dep).1.vulnerabilities
        = [convertOSVToVulnerabilityInfo { id := "GHSA-1" }
            (NormalizeDependencyInfo dep)]) :=
  (retry_alternates_semantics
      (fun name _ _ =>
        if name = "mypkg" then Except.ok [{ id := "GHSA-1" }]
        else Except.error "OSV API returned status 500")
      { name := "MyPkg", version := "1.0", runtime := "dotnet" }
      "OSV API returned status 500" rfl rfl).1 [{ id := "GHSA-1" }] rfl

end Elang
